import Mathlib

/-!
Shallow embedding of the retirement SIP estimator (`src/app.py`).

The calculator is the pydantic model `Retirement` with methods `get_age`,
`get_years_to_retire`, `get_total_corpus` and `estimate_sip`, followed by a
Streamlit presentation block that runs the calculation inside
`try: ... except ValueError as e: st.error(str(e))`.

Modelling choices:
* Python floats are modelled as rationals (ℚ); the claims are about the
  exact closed-form formulas the code computes.
* Python exceptions are modelled by `Except PyError`: `ValueError` carries
  its message, `ZeroDivisionError` is raised by the division helper `pydiv`
  exactly when the denominator is zero (as in Python float division).
* `date.today()` is passed as an explicit `Date` parameter.
* pydantic `Field` constraints are collected in `Retirement.valid`.
-/

/-- A calendar date, as used by `datetime.date`: year, month, day. -/
structure Date where
  year : ℤ
  month : ℕ
  day : ℕ
deriving DecidableEq, Repr

/-- Python tuple comparison `(a, b) < (c, d)`: lexicographic. -/
def pairLt (a b c d : ℕ) : Bool :=
  a < c || (a == c && b < d)

/-- Python date comparison `d1 <= d2`: lexicographic on (year, month, day). -/
def Date.lexLe (d1 d2 : Date) : Bool :=
  d1.year < d2.year ||
    (d1.year == d2.year &&
      (d1.month < d2.month ||
        (d1.month == d2.month && d1.day ≤ d2.day)))

/-- Python errors that the calculator can raise. -/
inductive PyError where
  | valueError (msg : String)
  | zeroDivisionError
deriving DecidableEq, Repr

/-- Python division on floats: raises `ZeroDivisionError` when the
denominator is zero, otherwise returns the quotient. -/
def pydiv (a b : ℚ) : Except PyError ℚ :=
  if b = 0 then Except.error PyError.zeroDivisionError else Except.ok (a / b)

/-- The `Retirement` pydantic model of `src/app.py` (fields only). -/
structure Retirement where
  monthly_expense : ℚ
  dob : Date
  retire_age : ℤ
  inflation_rate : ℚ
  withdrawal_rate : ℚ
  expected_return : ℚ
deriving DecidableEq, Repr

/-- The pydantic `Field` constraints checked when a `Retirement` record is
constructed: `monthly_expense` has `gt=0`, `dob` has `le=date.today()`,
each rate field has `ge=0.0, le=100.0`.  `retire_age` carries no range
constraint in the model (only `default=60`). -/
def Retirement.valid (r : Retirement) (today : Date) : Bool :=
  decide (0 < r.monthly_expense) &&
  r.dob.lexLe today &&
  decide (0 ≤ r.inflation_rate) && decide (r.inflation_rate ≤ 100) &&
  decide (0 ≤ r.withdrawal_rate) && decide (r.withdrawal_rate ≤ 100) &&
  decide (0 ≤ r.expected_return) && decide (r.expected_return ≤ 100)

/-- `Retirement.get_age`:
`today.year - dob.year - ((today.month, today.day) < (dob.month, dob.day))`,
with the boolean counted as 0 or 1 as in Python. -/
def Retirement.get_age (r : Retirement) (today : Date) : ℤ :=
  today.year - r.dob.year -
    (if pairLt today.month today.day r.dob.month r.dob.day then 1 else 0)

/-- `Retirement.get_years_to_retire`: `retire_age - age`, raising
`ValueError("Years to retire cannot be negative")` when the difference
is `<= 0`. -/
def Retirement.get_years_to_retire (r : Retirement) (today : Date) :
    Except PyError ℤ :=
  let age := r.get_age today
  let years_to_retire := r.retire_age - age
  if years_to_retire ≤ 0 then
    Except.error (PyError.valueError "Years to retire cannot be negative")
  else
    Except.ok years_to_retire

/-- `Retirement.get_total_corpus`:
`annual_expense * (1 + inflation_rate/100) ** years_to_retire` divided by
`withdrawal_rate / 100`.  The exponent is a positive integer whenever it is
reached, so `Int.toNat` is faithful. -/
def Retirement.get_total_corpus (r : Retirement) (today : Date) :
    Except PyError ℚ :=
  let annual_expense := r.monthly_expense * 12
  match r.get_years_to_retire today with
  | Except.error e => Except.error e
  | Except.ok years_to_retire =>
      let future_value :=
        annual_expense * (1 + r.inflation_rate / 100) ^ years_to_retire.toNat
      pydiv future_value (r.withdrawal_rate / 100)

/-- `Retirement.estimate_sip`:
`i = expected_return / 1200`, `n = years * 12`, `m = total corpus`,
`x = (1+i)**n - 1`, `y = (x / i) * (1 + i)`, result `m / y`.
The two divisions raise `ZeroDivisionError` exactly when their denominators
are zero, in the evaluation order of the Python source. -/
def Retirement.estimate_sip (r : Retirement) (today : Date) :
    Except PyError ℚ :=
  let i := r.expected_return / 1200
  match r.get_years_to_retire today with
  | Except.error e => Except.error e
  | Except.ok years =>
      let n := years.toNat * 12
      match r.get_total_corpus today with
      | Except.error e => Except.error e
      | Except.ok m =>
          let x := (1 + i) ^ n - 1
          match pydiv x i with
          | Except.error e => Except.error e
          | Except.ok xi =>
              let y := xi * (1 + i)
              pydiv m y

/-- The calculation block of the app (lines 62–66 of `src/app.py`):
years, corpus, SIP, invested amount, and interest, with any raised error
propagated. -/
def evaluate (r : Retirement) (today : Date) :
    Except PyError (ℤ × ℚ × ℚ × ℚ × ℚ) :=
  match r.get_years_to_retire today with
  | Except.error e => Except.error e
  | Except.ok years_to_retire =>
      match r.get_total_corpus today with
      | Except.error e => Except.error e
      | Except.ok total_corpus =>
          match r.estimate_sip today with
          | Except.error e => Except.error e
          | Except.ok sip_amount =>
              let total_investement := sip_amount * (years_to_retire : ℚ) * 12
              let intrest := total_corpus - total_investement
              Except.ok
                (years_to_retire, total_corpus, sip_amount,
                  total_investement, intrest)

/-- What the page ends up showing for one evaluation. -/
inductive Outcome where
  | success (years : ℤ) (corpus sip invested interest : ℚ)
  | errorMessage (msg : String)
  | uncaught (e : PyError)
deriving DecidableEq, Repr

/-- The `try: ... except ValueError as e: st.error(str(e))` block of the
app: a `ValueError` is converted to a user-visible error message, any other
exception escapes the handler. -/
def runApp (r : Retirement) (today : Date) : Outcome :=
  match evaluate r today with
  | Except.ok (y, c, s, inv, intr) => Outcome.success y c s inv intr
  | Except.error (PyError.valueError msg) => Outcome.errorMessage msg
  | Except.error e => Outcome.uncaught e

/-- The closed-form corpus value, for stating the specification lemmas. -/
def corpusFormula (r : Retirement) (n : ℕ) : ℚ :=
  r.monthly_expense * 12 * (1 + r.inflation_rate / 100) ^ n /
    (r.withdrawal_rate / 100)

/-- The annuity-due growth factor `((1+i)^n - 1) / i * (1+i)`. -/
def annuityFactor (i : ℚ) (n : ℕ) : ℚ :=
  ((1 + i) ^ n - 1) / i * (1 + i)

/-! ### Concrete inputs used by witnesses and counterexamples -/

/-- The default scenario of the app's form, with `retire_age` lowered to 35
so that one year remains to retirement on `today0`. -/
def r0 : Retirement :=
  { monthly_expense := 50000, dob := ⟨1990, 1, 1⟩, retire_age := 35,
    inflation_rate := 8, withdrawal_rate := 3, expected_return := 12 }

/-- A fixed evaluation date. -/
def today0 : Date := ⟨2024, 6, 1⟩

/-- `r0` with a zero expected return. -/
def r4 : Retirement := { r0 with expected_return := 0 }

/-- `r0` with a zero withdrawal rate. -/
def r5 : Retirement := { r0 with withdrawal_rate := 0 }

/-- `r0` with a retirement age far outside the 30–100 range of the UI
widget. -/
def r8 : Retirement := { r0 with retire_age := 200 }

/-- `r0` with a retirement age already passed on `today0`. -/
def rFail : Retirement := { r0 with retire_age := 30 }

/-! ### Helper lemmas -/

lemma get_years_to_retire_ok_iff (r : Retirement) (today : Date) (n : ℤ) :
    r.get_years_to_retire today = Except.ok n ↔
      0 < r.retire_age - r.get_age today ∧ n = r.retire_age - r.get_age today := by
  unfold Retirement.get_years_to_retire
  by_cases h : r.retire_age - r.get_age today ≤ 0
  · rw [if_pos h]
    simp only [reduceCtorEq, false_iff]
    intro hc
    omega
  · rw [if_neg h]
    simp only [Except.ok.injEq]
    omega

lemma get_years_to_retire_pos (r : Retirement) (today : Date) (n : ℤ)
    (h : r.get_years_to_retire today = Except.ok n) : 0 < n := by
  rcases (get_years_to_retire_ok_iff r today n).mp h with ⟨h1, h2⟩
  omega

lemma get_total_corpus_eq (r : Retirement) (today : Date) (n : ℤ)
    (hy : r.get_years_to_retire today = Except.ok n)
    (hw : 0 < r.withdrawal_rate) :
    r.get_total_corpus today = Except.ok (corpusFormula r n.toNat) := by
  have hw0 : r.withdrawal_rate / 100 ≠ 0 := ne_of_gt (by linarith)
  unfold Retirement.get_total_corpus
  rw [hy]
  simp only [pydiv, if_neg hw0, corpusFormula]

lemma annuityFactor_eq_sum (i : ℚ) (hi : i ≠ 0) (n : ℕ) :
    annuityFactor i n = (∑ k in Finset.range n, (1 + i) ^ k) * (1 + i) := by
  unfold annuityFactor
  have h := geom_sum_mul (1 + i) n
  rw [show (1 + i) - 1 = i by ring] at h
  rw [← h, mul_div_cancel_right₀ _ hi]

lemma annuityFactor_pos (i : ℚ) (hi : 0 < i) (n : ℕ) (hn : n ≠ 0) :
    0 < annuityFactor i n := by
  rw [annuityFactor_eq_sum i (ne_of_gt hi) n]
  apply mul_pos
  · apply Finset.sum_pos
    · intro k _
      exact pow_pos (by linarith) k
    · exact Finset.nonempty_range_iff.mpr hn
  · linarith

lemma annuityFactor_mono (n : ℕ) (a b : ℚ) (ha : 0 < a) (hab : a ≤ b) :
    annuityFactor a n ≤ annuityFactor b n := by
  rw [annuityFactor_eq_sum a (ne_of_gt ha) n,
    annuityFactor_eq_sum b (ne_of_gt (by linarith)) n]
  apply mul_le_mul
  · apply Finset.sum_le_sum
    intro k _
    exact pow_le_pow_left₀ (by linarith) (by linarith) k
  · linarith
  · linarith
  · apply Finset.sum_nonneg
    intro k _
    exact pow_nonneg (by linarith) k

lemma le_annuityFactor (i : ℚ) (hi : 0 < i) (n : ℕ) :
    (n : ℚ) ≤ annuityFactor i n := by
  rw [annuityFactor_eq_sum i (ne_of_gt hi) n]
  have hsum : (n : ℚ) ≤ ∑ k in Finset.range n, (1 + i) ^ k := by
    calc (n : ℚ) = ∑ _k in Finset.range n, (1 : ℚ) := by simp
    _ ≤ ∑ k in Finset.range n, (1 + i) ^ k := by
        apply Finset.sum_le_sum
        intro k _
        exact one_le_pow₀ (by linarith)
  have hnn : (0 : ℚ) ≤ ∑ k in Finset.range n, (1 + i) ^ k := by
    apply Finset.sum_nonneg
    intro k _
    exact pow_nonneg (by linarith) k
  have h2 : (∑ k in Finset.range n, (1 + i) ^ k) ≤
      (∑ k in Finset.range n, (1 + i) ^ k) * (1 + i) :=
    le_mul_of_one_le_right hnn (by linarith)
  linarith

lemma corpusFormula_nonneg (r : Retirement) (n : ℕ)
    (hme : 0 ≤ r.monthly_expense) (hinf : 0 ≤ r.inflation_rate)
    (hw : 0 ≤ r.withdrawal_rate) : 0 ≤ corpusFormula r n := by
  unfold corpusFormula
  have h1 : (0 : ℚ) ≤ 1 + r.inflation_rate / 100 := by linarith
  apply div_nonneg
  · exact mul_nonneg (mul_nonneg hme (by norm_num)) (pow_nonneg h1 n)
  · linarith

lemma estimate_sip_eq (r : Retirement) (today : Date) (n : ℤ)
    (hy : r.get_years_to_retire today = Except.ok n)
    (hw : 0 < r.withdrawal_rate) (he : 0 < r.expected_return) :
    r.estimate_sip today =
      Except.ok (corpusFormula r n.toNat /
        annuityFactor (r.expected_return / 1200) (n.toNat * 12)) := by
  have hi : 0 < r.expected_return / 1200 := by linarith
  have hnpos := get_years_to_retire_pos r today n hy
  have hn : n.toNat * 12 ≠ 0 := by omega
  have hfac := annuityFactor_pos (r.expected_return / 1200) hi (n.toNat * 12) hn
  have hfac' : ((1 + r.expected_return / 1200) ^ (n.toNat * 12) - 1) /
      (r.expected_return / 1200) * (1 + r.expected_return / 1200) =
        annuityFactor (r.expected_return / 1200) (n.toNat * 12) := rfl
  unfold Retirement.estimate_sip
  rw [hy, get_total_corpus_eq r today n hy hw]
  simp only [pydiv, if_neg (ne_of_gt hi)]
  rw [hfac', if_neg (ne_of_gt hfac)]

/-! ### Claims -/

/-- C1: for every input with `years_to_retire = n > 0` and
`withdrawal_rate > 0`, `get_total_corpus` returns exactly
`(monthly_expense * 12) * (1 + inflation_rate/100) ^ n / (withdrawal_rate/100)`. -/
theorem claim_C1 (r : Retirement) (today : Date) (n : ℤ)
    (hy : r.get_years_to_retire today = Except.ok n)
    (hw : 0 < r.withdrawal_rate) :
    r.get_total_corpus today =
      Except.ok (r.monthly_expense * 12 * (1 + r.inflation_rate / 100) ^ n.toNat /
        (r.withdrawal_rate / 100)) :=
  get_total_corpus_eq r today n hy hw

/-- Witness for C1 at the concrete scenario `r0`, `today0`. -/
theorem claim_C1_witness :
    r0.get_years_to_retire today0 = Except.ok 1 ∧ 0 < r0.withdrawal_rate ∧
      r0.get_total_corpus today0 =
        Except.ok (r0.monthly_expense * 12 *
          (1 + r0.inflation_rate / 100) ^ (1 : ℤ).toNat /
            (r0.withdrawal_rate / 100)) :=
  ⟨rfl, by norm_num [r0], claim_C1 r0 today0 1 rfl (by norm_num [r0])⟩

/-- C2: `get_years_to_retire` fails with the schedule `ValueError` exactly
when `retire_age - get_age <= 0`, and whenever it succeeds the returned
value is strictly positive. -/
theorem claim_C2 (r : Retirement) (today : Date) :
    (r.get_years_to_retire today =
        Except.error (PyError.valueError "Years to retire cannot be negative") ↔
      r.retire_age - r.get_age today ≤ 0) ∧
    ∀ n : ℤ, r.get_years_to_retire today = Except.ok n → 0 < n := by
  constructor
  · unfold Retirement.get_years_to_retire
    by_cases h : r.retire_age - r.get_age today ≤ 0
    · rw [if_pos h]
      simp [h]
    · rw [if_neg h]
      simp [h]
  · intro n hn
    exact get_years_to_retire_pos r today n hn

/-- Witness for C2 at the concrete scenario `r0`, `today0`. -/
theorem claim_C2_witness :
    r0.get_years_to_retire today0 = Except.ok 1 ∧ (0 : ℤ) < 1 :=
  ⟨rfl, (claim_C2 r0 today0).2 1 rfl⟩

/-- C9: `get_age` returns `today.year - dob.year`, minus 1 exactly when
`(today.month, today.day)` is lexicographically less than
`(dob.month, dob.day)`. -/
theorem claim_C9 (r : Retirement) (today : Date) :
    (r.get_age today = today.year - r.dob.year - 1 ↔
      (today.month < r.dob.month ∨
        (today.month = r.dob.month ∧ today.day < r.dob.day))) ∧
    (r.get_age today = today.year - r.dob.year ↔
      ¬(today.month < r.dob.month ∨
        (today.month = r.dob.month ∧ today.day < r.dob.day))) := by
  have hb : pairLt today.month today.day r.dob.month r.dob.day = true ↔
      (today.month < r.dob.month ∨
        (today.month = r.dob.month ∧ today.day < r.dob.day)) := by
    simp [pairLt]
  unfold Retirement.get_age
  by_cases h : (today.month < r.dob.month ∨
      (today.month = r.dob.month ∧ today.day < r.dob.day))
  · rw [if_pos (hb.mpr h)]
    constructor
    · exact ⟨fun _ => h, fun _ => rfl⟩
    · constructor
      · intro heq
        omega
      · intro hn
        exact absurd h hn
  · rw [if_neg (fun hc => h (hb.mp hc))]
    constructor
    · constructor
      · intro heq
        omega
      · intro hc
        exact absurd hc h
    · constructor
      · intro _
        exact h
      · intro _
        omega

/-- C8 (counterexample): a record whose `retire_age` lies far outside the
30–100 range claimed for construction-time validation is nevertheless
accepted by the model's field validation. -/
theorem claim_C8_counterexample :
    r8.valid today0 = true ∧ ¬(30 ≤ r8.retire_age ∧ r8.retire_age ≤ 100) := by
  constructor
  · norm_num [r8, r0, today0, Retirement.valid, Date.lexLe]
  · norm_num [r8, r0]

/-- C8 (amended): constructing a `Retirement` record succeeds exactly when
`monthly_expense > 0`, `dob ≤ today` and the three rate fields lie in
0–100; `retire_age` is not range-checked at construction (the 30–100 bound
exists only on the UI widget). -/
theorem claim_C8 (r : Retirement) (today : Date) :
    r.valid today = true ↔
      (0 < r.monthly_expense ∧
        (r.dob.year < today.year ∨ (r.dob.year = today.year ∧
          (r.dob.month < today.month ∨
            (r.dob.month = today.month ∧ r.dob.day ≤ today.day)))) ∧
        0 ≤ r.inflation_rate ∧ r.inflation_rate ≤ 100 ∧
        0 ≤ r.withdrawal_rate ∧ r.withdrawal_rate ≤ 100 ∧
        0 ≤ r.expected_return ∧ r.expected_return ≤ 100) := by
  simp [Retirement.valid, Date.lexLe, and_assoc]

/-- C5 (counterexample): the input with `withdrawal_rate = 0` passes
construction-time validation, yet its evaluation raises a
`ZeroDivisionError` that the page's `except ValueError` handler does not
catch — the error escapes the presentation boundary. -/
theorem claim_C5_counterexample :
    r5.valid today0 = true ∧
      runApp r5 today0 = Outcome.uncaught PyError.zeroDivisionError := by
  constructor
  · norm_num [r5, r0, today0, Retirement.valid, Date.lexLe]
  · norm_num [runApp, evaluate, r5, r0, today0, Retirement.get_total_corpus,
      Retirement.get_years_to_retire, Retirement.get_age, pairLt, pydiv]

/-- C5 (amended): the presentation boundary converts every `ValueError`
raised by the calculator into a user-visible message, but it catches only
`ValueError`: anything that escapes it is a `ZeroDivisionError` (raised
when `withdrawal_rate = 0` or `expected_return = 0`). -/
theorem claim_C5 (r : Retirement) (today : Date) :
    (∀ msg, evaluate r today = Except.error (PyError.valueError msg) →
        runApp r today = Outcome.errorMessage msg) ∧
    (∀ e, runApp r today = Outcome.uncaught e →
        e = PyError.zeroDivisionError) := by
  constructor
  · intro msg h
    unfold runApp
    rw [h]
  · intro e h
    unfold runApp at h
    cases hev : evaluate r today with
    | ok v =>
        obtain ⟨y, c, s, inv, intr⟩ := v
        rw [hev] at h
        simp at h
    | error e' =>
        cases e' with
        | valueError m =>
            rw [hev] at h
            simp at h
        | zeroDivisionError =>
            rw [hev] at h
            simp at h
            exact h.symm

/-- Witness for C5 (amended): the schedule `ValueError` raised for `rFail`
is converted to the user-visible message. -/
theorem claim_C5_witness :
    evaluate rFail today0 =
        Except.error (PyError.valueError "Years to retire cannot be negative") ∧
      runApp rFail today0 =
        Outcome.errorMessage "Years to retire cannot be negative" :=
  ⟨rfl, (claim_C5 rFail today0).1 "Years to retire cannot be negative" rfl⟩

/-- When `expected_return = 0`, the first division of `estimate_sip`
(`x / i` with `i = 0`) raises `ZeroDivisionError`: the code has no
special case for a zero rate. -/
lemma estimate_sip_zero_return (r : Retirement) (today : Date) (n : ℤ)
    (hy : r.get_years_to_retire today = Except.ok n)
    (hw : 0 < r.withdrawal_rate) (he : r.expected_return = 0) :
    r.estimate_sip today = Except.error PyError.zeroDivisionError := by
  unfold Retirement.estimate_sip
  rw [hy, get_total_corpus_eq r today n hy hw, he]
  simp only [pydiv]
  rw [if_pos (by norm_num)]

/-- C4: contrary to the spec's boundary requirement, `estimate_sip` raises
an (uncaught) `ZeroDivisionError` on the valid input `r4` with
`expected_return = 0`, instead of returning `required_corpus / n_months`. -/
theorem claim_C4 :
    r4.valid today0 = true ∧
      r4.estimate_sip today0 = Except.error PyError.zeroDivisionError := by
  constructor
  · norm_num [r4, r0, today0, Retirement.valid, Date.lexLe]
  · exact estimate_sip_zero_return r4 today0 1 rfl (by norm_num [r4, r0]) rfl

/-- C3: for every input with `years_to_retire = n > 0`,
`withdrawal_rate > 0` and `expected_return > 0`, `estimate_sip` returns the
required corpus divided by the annuity-due growth factor
`((1+i)^(12n) - 1) / i * (1+i)` with `i = (expected_return/100)/12`. -/
theorem claim_C3 (r : Retirement) (today : Date) (n : ℤ)
    (hy : r.get_years_to_retire today = Except.ok n)
    (hw : 0 < r.withdrawal_rate) (he : 0 < r.expected_return) :
    r.estimate_sip today =
      Except.ok ((r.monthly_expense * 12 * (1 + r.inflation_rate / 100) ^ n.toNat /
          (r.withdrawal_rate / 100)) /
        (((1 + r.expected_return / 100 / 12) ^ (n.toNat * 12) - 1) /
            (r.expected_return / 100 / 12) * (1 + r.expected_return / 100 / 12))) := by
  have hdiv : r.expected_return / 100 / 12 = r.expected_return / 1200 := by
    ring
  rw [hdiv]
  exact estimate_sip_eq r today n hy hw he

/-- Witness for C3 at the concrete scenario `r0`, `today0`. -/
theorem claim_C3_witness :
    r0.get_years_to_retire today0 = Except.ok 1 ∧ 0 < r0.withdrawal_rate ∧
      0 < r0.expected_return ∧
      r0.estimate_sip today0 =
        Except.ok ((r0.monthly_expense * 12 *
            (1 + r0.inflation_rate / 100) ^ (1 : ℤ).toNat /
              (r0.withdrawal_rate / 100)) /
          (((1 + r0.expected_return / 100 / 12) ^ ((1 : ℤ).toNat * 12) - 1) /
              (r0.expected_return / 100 / 12) *
                (1 + r0.expected_return / 100 / 12))) :=
  ⟨rfl, by norm_num [r0], by norm_num [r0],
    claim_C3 r0 today0 1 rfl (by norm_num [r0]) (by norm_num [r0])⟩

/-- C6: holding all other inputs of a valid record fixed, the total corpus
is monotonically increasing in the inflation rate and monotonically
decreasing in the (positive) withdrawal rate. -/
theorem claim_C6 (r : Retirement) (today : Date) (yrs : ℤ) (a b wa wb : ℚ)
    (hy : r.get_years_to_retire today = Except.ok yrs)
    (hme : 0 ≤ r.monthly_expense) (hinf : 0 ≤ r.inflation_rate)
    (hw : 0 < r.withdrawal_rate)
    (ha : 0 ≤ a) (hab : a ≤ b) (hwa : 0 < wa) (hwab : wa ≤ wb) :
    (∃ ca cb,
      ({ r with inflation_rate := a }).get_total_corpus today = Except.ok ca ∧
      ({ r with inflation_rate := b }).get_total_corpus today = Except.ok cb ∧
      ca ≤ cb) ∧
    (∃ ca cb,
      ({ r with withdrawal_rate := wa }).get_total_corpus today = Except.ok ca ∧
      ({ r with withdrawal_rate := wb }).get_total_corpus today = Except.ok cb ∧
      cb ≤ ca) := by
  constructor
  · refine ⟨_, _, get_total_corpus_eq _ today yrs hy hw,
      get_total_corpus_eq _ today yrs hy hw, ?_⟩
    show r.monthly_expense * 12 * (1 + a / 100) ^ yrs.toNat /
        (r.withdrawal_rate / 100) ≤
      r.monthly_expense * 12 * (1 + b / 100) ^ yrs.toNat /
        (r.withdrawal_rate / 100)
    gcongr
  · refine ⟨_, _, get_total_corpus_eq _ today yrs hy hwa,
      get_total_corpus_eq _ today yrs hy (lt_of_lt_of_le hwa hwab), ?_⟩
    show r.monthly_expense * 12 * (1 + r.inflation_rate / 100) ^ yrs.toNat /
        (wb / 100) ≤
      r.monthly_expense * 12 * (1 + r.inflation_rate / 100) ^ yrs.toNat /
        (wa / 100)
    have h1 : (0 : ℚ) ≤ 1 + r.inflation_rate / 100 := by linarith
    have hnum : (0 : ℚ) ≤ r.monthly_expense * 12 *
        (1 + r.inflation_rate / 100) ^ yrs.toNat :=
      mul_nonneg (mul_nonneg hme (by norm_num)) (pow_nonneg h1 _)
    gcongr

/-- Witness for C6 at the concrete scenario `r0`, `today0`, with inflation
rates 8 ≤ 9 and withdrawal rates 3 ≤ 4. -/
theorem claim_C6_witness :
    r0.get_years_to_retire today0 = Except.ok 1 ∧
      ((∃ ca cb,
        ({ r0 with inflation_rate := 8 }).get_total_corpus today0 =
            Except.ok ca ∧
        ({ r0 with inflation_rate := 9 }).get_total_corpus today0 =
            Except.ok cb ∧
        ca ≤ cb) ∧
      (∃ ca cb,
        ({ r0 with withdrawal_rate := 3 }).get_total_corpus today0 =
            Except.ok ca ∧
        ({ r0 with withdrawal_rate := 4 }).get_total_corpus today0 =
            Except.ok cb ∧
        cb ≤ ca)) :=
  ⟨rfl, claim_C6 r0 today0 1 8 9 3 4 rfl (by norm_num [r0]) (by norm_num [r0])
    (by norm_num [r0]) (by norm_num) (by norm_num) (by norm_num) (by norm_num)⟩

/-- C7: holding all other inputs of a valid record fixed, the estimated SIP
contribution is monotonically decreasing in the (positive) expected return
rate. -/
theorem claim_C7 (r : Retirement) (today : Date) (yrs : ℤ) (a b : ℚ)
    (hy : r.get_years_to_retire today = Except.ok yrs)
    (hme : 0 ≤ r.monthly_expense) (hinf : 0 ≤ r.inflation_rate)
    (hw : 0 < r.withdrawal_rate) (ha : 0 < a) (hab : a ≤ b) :
    ∃ sa sb,
      ({ r with expected_return := a }).estimate_sip today = Except.ok sa ∧
      ({ r with expected_return := b }).estimate_sip today = Except.ok sb ∧
      sb ≤ sa := by
  have hb : (0 : ℚ) < b := lt_of_lt_of_le ha hab
  refine ⟨_, _, estimate_sip_eq _ today yrs hy hw ha,
    estimate_sip_eq _ today yrs hy hw hb, ?_⟩
  show corpusFormula r yrs.toNat / annuityFactor (b / 1200) (yrs.toNat * 12) ≤
    corpusFormula r yrs.toNat / annuityFactor (a / 1200) (yrs.toNat * 12)
  have hm : yrs.toNat * 12 ≠ 0 := by
    have := get_years_to_retire_pos r today yrs hy
    omega
  have hC : 0 ≤ corpusFormula r yrs.toNat :=
    corpusFormula_nonneg r _ hme hinf (le_of_lt hw)
  have hFa : 0 < annuityFactor (a / 1200) (yrs.toNat * 12) :=
    annuityFactor_pos _ (by linarith) _ hm
  have hmono : annuityFactor (a / 1200) (yrs.toNat * 12) ≤
      annuityFactor (b / 1200) (yrs.toNat * 12) :=
    annuityFactor_mono _ _ _ (by linarith) (by linarith)
  gcongr

/-- Witness for C7 at the concrete scenario `r0`, `today0`, with expected
returns 12 ≤ 24. -/
theorem claim_C7_witness :
    r0.get_years_to_retire today0 = Except.ok 1 ∧
      (∃ sa sb,
        ({ r0 with expected_return := 12 }).estimate_sip today0 =
            Except.ok sa ∧
        ({ r0 with expected_return := 24 }).estimate_sip today0 =
            Except.ok sb ∧
        sb ≤ sa) :=
  ⟨rfl, claim_C7 r0 today0 1 12 24 rfl (by norm_num [r0]) (by norm_num [r0])
    (by norm_num [r0]) (by norm_num) (by norm_num)⟩

/-- C10: for every valid input with positive rates, the total invested
amount `sip * years * 12` never exceeds the total corpus, so the derived
interest figure is nonnegative. -/
theorem claim_C10 (r : Retirement) (today : Date) (yrs : ℤ)
    (hy : r.get_years_to_retire today = Except.ok yrs)
    (hme : 0 ≤ r.monthly_expense) (hinf : 0 ≤ r.inflation_rate)
    (hw : 0 < r.withdrawal_rate) (he : 0 < r.expected_return) :
    ∃ s c, r.estimate_sip today = Except.ok s ∧
      r.get_total_corpus today = Except.ok c ∧
      s * ((yrs : ℚ) * 12) ≤ c ∧ 0 ≤ c - s * ((yrs : ℚ) * 12) := by
  have hpos := get_years_to_retire_pos r today yrs hy
  have hm : yrs.toNat * 12 ≠ 0 := by omega
  have hi : (0 : ℚ) < r.expected_return / 1200 := by linarith
  have hF : 0 < annuityFactor (r.expected_return / 1200) (yrs.toNat * 12) :=
    annuityFactor_pos _ hi _ hm
  have hC : 0 ≤ corpusFormula r yrs.toNat :=
    corpusFormula_nonneg r _ hme hinf (le_of_lt hw)
  have hle : ((yrs.toNat * 12 : ℕ) : ℚ) ≤
      annuityFactor (r.expected_return / 1200) (yrs.toNat * 12) :=
    le_annuityFactor _ hi _
  have htn : ((yrs.toNat : ℚ)) = (yrs : ℚ) := by
    exact_mod_cast Int.toNat_of_nonneg (le_of_lt hpos)
  have hcast : ((yrs : ℚ) * 12) = ((yrs.toNat * 12 : ℕ) : ℚ) := by
    push_cast
    rw [htn]
  have hmain : corpusFormula r yrs.toNat /
      annuityFactor (r.expected_return / 1200) (yrs.toNat * 12) *
        ((yrs : ℚ) * 12) ≤ corpusFormula r yrs.toNat := by
    rw [hcast]
    calc corpusFormula r yrs.toNat /
        annuityFactor (r.expected_return / 1200) (yrs.toNat * 12) *
          ((yrs.toNat * 12 : ℕ) : ℚ)
        ≤ corpusFormula r yrs.toNat /
            annuityFactor (r.expected_return / 1200) (yrs.toNat * 12) *
              annuityFactor (r.expected_return / 1200) (yrs.toNat * 12) :=
          mul_le_mul_of_nonneg_left hle (div_nonneg hC (le_of_lt hF))
      _ = corpusFormula r yrs.toNat := div_mul_cancel₀ _ (ne_of_gt hF)
  exact ⟨_, _, estimate_sip_eq r today yrs hy hw he,
    get_total_corpus_eq r today yrs hy hw, hmain, by linarith⟩

/-- Witness for C10 at the concrete scenario `r0`, `today0`. -/
theorem claim_C10_witness :
    r0.get_years_to_retire today0 = Except.ok 1 ∧
      (∃ s c, r0.estimate_sip today0 = Except.ok s ∧
        r0.get_total_corpus today0 = Except.ok c ∧
        s * (((1 : ℤ) : ℚ) * 12) ≤ c ∧ 0 ≤ c - s * (((1 : ℤ) : ℚ) * 12)) :=
  ⟨rfl, claim_C10 r0 today0 1 rfl (by norm_num [r0]) (by norm_num [r0])
    (by norm_num [r0]) (by norm_num [r0])⟩
